import Mathlib

/-
Verification of the configuration-option registration and callback-dispatch
core of the rust-weechat binding (src/weechat-rs/src/config/section.rs) and
of the buffer-selection logic of the bundled go plugin
(src/weechat/examples/go/src/lib.rs).

Raw C pointers are modelled as natural numbers (0 is the null pointer).
User closures are modelled by abstract identities: the properties under
scrutiny only concern whether a closure slot is occupied and how often and
with which arguments its occupant is invoked, so a trampoline invocation is
modelled as the list of observable events it performs (wrapper
reconstructions and closure invocations) together with its C return value.
Likewise the drop glue of ConfigSection is modelled as the ordered list of
release events it performs.
-/

namespace RustWeechat

/-- Raw C pointers are modelled as natural numbers; the value 0 stands for
the null pointer. -/
abbrev Ptr := Nat

/-- The null pointer, written ptr::null_mut() in the source. -/
def nullPtr : Ptr := 0

/-- The host status code WEECHAT_RC_OK, the fixed accepted-continue code
returned by the check trampoline. -/
def WEECHAT_RC_OK : Int := 0

/-- A user closure is identified abstractly: the claims only concern whether
a closure slot is occupied and how often its occupant runs. -/
abbrev ClosureId := Nat

/-- Modelled from the spec: the option type tags of the config module (the
defining file of OptionType is not among the given sources; spec section 3
lists the enum Boolean, Integer, String, Color; the String variant is
spelled Str here because a constructor of that name would shadow the Lean
string type inside the OptionType namespace). -/
inductive OptionType
  | Boolean
  | Integer
  | Str
  | Color

/-- Modelled from the spec: the textual type tag sent to the host for each
option type (spec section 6, all values cross the boundary as text). -/
def OptionType.as_str : OptionType → String
  | .Boolean => "boolean"
  | .Integer => "integer"
  | .Str => "string"
  | .Color => "color"

/-- Modelled from the spec: the plain-data option descriptor of the config
module (spec section 3, OptionDescriptor); its defining file is not among
the given sources, but every field appears at the construction site in
ConfigSection.new_boolean_option. The field defaults mirror the
Default::default() fill used there. -/
structure OptionDescription where
  name : String := ""
  description : String := ""
  option_type : OptionType := OptionType.Str
  string_values : String := ""
  min : Int := 0
  max : Int := 0
  default_value : String := ""
  value : String := ""
  null_allowed : Bool := false

/-- Modelled from the spec: the boolean option settings object (spec section
4.1); its defining file is not among the given sources, but every field is
read at the use site in ConfigSection.new_boolean_option. -/
structure BooleanOptionSettings where
  name : String := ""
  description : String := ""
  default_value : Bool := false
  value : Bool := false
  null_allowed : Bool := false
  check_cb : Option ClosureId := none
  change_cb : Option ClosureId := none
  delete_cb : Option ClosureId := none

/-- Modelled from the spec: the typed borrowed view over a native option
handle (spec section 3, Option typed wrapper): a pair of the native handle
and the plugin handle, owning nothing. -/
structure BooleanOpt where
  ptr : Ptr
  weechat_ptr : Ptr

/-- Modelled from the spec: the BorrowedOption constructor, a zero-cost view
built from the native handle and the plugin handle. -/
def BooleanOpt.from_ptrs (ptr : Ptr) (weechat_ptr : Ptr) : BooleanOpt :=
  { ptr := ptr, weechat_ptr := weechat_ptr }

/-- Modelled from the spec: the public boolean option wrapper returned by
new_boolean_option, carrying the inner borrowed view (the PhantomData
section marker has no runtime content and is omitted). -/
structure BooleanOption where
  inner : BooleanOpt

/-- The Registry Cell (OptionPointers in the source): the plugin handle and
up to three user closures, one per callback role. -/
structure OptionPointers where
  weechat_ptr : Ptr
  check_cb : Option ClosureId
  change_cb : Option ClosureId
  delete_cb : Option ClosureId

/-- The section-level read/write Cell (ConfigSectionPointers in the
source). -/
structure ConfigSectionPointers where
  read_cb : Option ClosureId
  write_cb : Option ClosureId

/-- The Weechat Configuration section handle bundle (struct ConfigSection in
the source). -/
structure ConfigSection where
  ptr : Ptr
  config_ptr : Ptr
  weechat_ptr : Ptr
  section_data : Ptr

/-- The C function pointers that new_option can install for the three
callback roles: one monomorphised trampoline per role. -/
inductive CCallback
  | checkTrampoline
  | changeTrampoline
  | deleteTrampoline

/-- The full argument tuple of the host registration call config_new_option,
in source order: handles, descriptor text fields, then for each of the three
roles the function pointer, the context pointer slot and the legacy data
slot. -/
structure ConfigNewOptionArgs where
  config_ptr : Ptr
  section_ptr : Ptr
  name : String
  option_type : String
  description : String
  string_values : String
  min : Int
  max : Int
  default_value : String
  value : String
  null_allowed : Int
  check_cb : Option CCallback
  check_pointer : Ptr
  check_data : Ptr
  change_cb : Option CCallback
  change_pointer : Ptr
  change_data : Ptr
  delete_cb : Option CCallback
  delete_pointer : Ptr
  delete_data : Ptr

/-- The argument tuple that ConfigSection.new_option passes to the host's
config_new_option, given the descriptor, the three optional closures and the
stable address cell_addr at which the OptionPointers cell was leaked
(section.rs lines 338 to 397). String fields pass through LossyCString,
modelled as the identity. -/
def ConfigSection.new_option_args (self : ConfigSection)
    (option_description : OptionDescription)
    (check_cb change_cb delete_cb : Option ClosureId)
    (cell_addr : Ptr) : ConfigNewOptionArgs :=
  { config_ptr := self.config_ptr
    section_ptr := self.ptr
    name := option_description.name
    option_type := option_description.option_type.as_str
    description := option_description.description
    string_values := option_description.string_values
    min := option_description.min
    max := option_description.max
    default_value := option_description.default_value
    value := option_description.value
    null_allowed := if option_description.null_allowed then 1 else 0
    check_cb := match check_cb with
      | some _ => some CCallback.checkTrampoline
      | none => none
    check_pointer := cell_addr
    check_data := nullPtr
    change_cb := match change_cb with
      | some _ => some CCallback.changeTrampoline
      | none => none
    change_pointer := cell_addr
    change_data := nullPtr
    delete_cb := match delete_cb with
      | some _ => some CCallback.deleteTrampoline
      | none => none
    delete_pointer := cell_addr
    delete_data := nullPtr }

/-- The OptionPointers cell allocated by new_option and leaked to a stable
address (section.rs lines 363 to 372). -/
def ConfigSection.new_option_cell (self : ConfigSection)
    (check_cb change_cb delete_cb : Option ClosureId) : OptionPointers :=
  { weechat_ptr := self.weechat_ptr
    check_cb := check_cb
    change_cb := change_cb
    delete_cb := delete_cb }

/-- ConfigSection.new_option: build the registration arguments and return
whatever handle the host's config_new_option hands back, unchecked (the
host's behaviour is a parameter; section.rs lines 272 to 399). -/
def ConfigSection.new_option (self : ConfigSection)
    (option_description : OptionDescription)
    (check_cb change_cb delete_cb : Option ClosureId)
    (host : ConfigNewOptionArgs → Ptr) (cell_addr : Ptr) : Ptr :=
  host (self.new_option_args option_description check_cb change_cb delete_cb
    cell_addr)

/-- The OptionDescription built inline by ConfigSection.new_boolean_option
(section.rs lines 173 to 184), split out as a definition so its fields can
be inspected. -/
def ConfigSection.new_boolean_option_description
    (settings : BooleanOptionSettings) : OptionDescription :=
  let value := if settings.value then "on" else "off"
  let default_value := if settings.default_value then "on" else "off"
  { name := settings.name
    description := settings.description
    option_type := OptionType.Boolean
    default_value := default_value
    value := value
    null_allowed := settings.null_allowed }

/-- ConfigSection.new_boolean_option (section.rs lines 169 to 193): build
the boolean descriptor, register through new_option and wrap whatever
pointer came back, with no null check. -/
def ConfigSection.new_boolean_option (self : ConfigSection)
    (settings : BooleanOptionSettings)
    (host : ConfigNewOptionArgs → Ptr) (cell_addr : Ptr) : BooleanOption :=
  let ptr := self.new_option
    (ConfigSection.new_boolean_option_description settings)
    settings.check_cb settings.change_cb settings.delete_cb host cell_addr
  { inner := BooleanOpt.from_ptrs ptr self.weechat_ptr }

/-- Observable events of one trampoline invocation: a typed wrapper
reconstruction through T::from_ptrs, or the invocation of a user closure
with the arguments it receives. -/
inductive TrampolineEvent
  | reconstruct (option_pointer : Ptr) (weechat_ptr : Ptr)
  | invokeCheck (cb : ClosureId) (option_pointer : Ptr) (value : String)
  | invokeChange (cb : ClosureId) (option_pointer : Ptr)
  | invokeDelete (cb : ClosureId) (option_pointer : Ptr)

/-- Whether an event is a typed wrapper reconstruction. -/
def TrampolineEvent.isReconstruct : TrampolineEvent → Bool
  | .reconstruct _ _ => true
  | _ => false

/-- Whether an event is a user closure invocation. -/
def TrampolineEvent.isInvoke : TrampolineEvent → Bool
  | .reconstruct _ _ => false
  | _ => true

/-- The check trampoline c_check_cb (section.rs lines 282 to 302): the
untyped context pointer is modelled by passing the OptionPointers cell it
addresses. It reconstructs the wrapper, invokes the check closure when one
is present, and returns WEECHAT_RC_OK unconditionally (the closure returns
unit, so nothing it does can reach the return value). -/
def c_check_cb (pointers : OptionPointers) (option_pointer : Ptr)
    (value : String) : List TrampolineEvent × Int :=
  let events := [TrampolineEvent.reconstruct option_pointer
    pointers.weechat_ptr]
  let events := match pointers.check_cb with
    | some cb => events ++ [TrampolineEvent.invokeCheck cb option_pointer
        value]
    | none => events
  (events, WEECHAT_RC_OK)

/-- The change trampoline c_change_cb (section.rs lines 304 to 319):
reconstructs the wrapper, then invokes the change closure when one is
present; returns nothing. -/
def c_change_cb (pointers : OptionPointers) (option_pointer : Ptr) :
    List TrampolineEvent :=
  let events := [TrampolineEvent.reconstruct option_pointer
    pointers.weechat_ptr]
  match pointers.change_cb with
  | some cb => events ++ [TrampolineEvent.invokeChange cb option_pointer]
  | none => events

/-- The delete trampoline c_delete_cb (section.rs lines 321 to 336):
reconstructs the wrapper, then invokes the delete closure when one is
present; returns nothing. -/
def c_delete_cb (pointers : OptionPointers) (option_pointer : Ptr) :
    List TrampolineEvent :=
  let events := [TrampolineEvent.reconstruct option_pointer
    pointers.weechat_ptr]
  match pointers.delete_cb with
  | some cb => events ++ [TrampolineEvent.invokeDelete cb option_pointer]
  | none => events

/-- Observable release events of ConfigSection teardown. freeSectionCell is
the release of the leaked ConfigSectionPointers allocation (the
SectionReadWriteCell); optionsFree and sectionFree are the two host frees;
freeRegistryCell would be the reclamation of a leaked OptionPointers cell
(the drop glue never emits it). -/
inductive TeardownEvent
  | freeSectionCell (addr : Ptr)
  | optionsFree (section_ptr : Ptr)
  | sectionFree (section_ptr : Ptr)
  | freeRegistryCell (addr : Ptr)

/-- Whether a teardown event reclaims an OptionPointers registry cell. -/
def TeardownEvent.isFreeRegistryCell : TeardownEvent → Bool
  | .freeRegistryCell _ => true
  | _ => false

/-- Whether a teardown event reclaims the section read/write cell. -/
def TeardownEvent.isFreeSectionCell : TeardownEvent → Bool
  | .freeSectionCell _ => true
  | _ => false

/-- The drop glue of ConfigSection (section.rs lines 87 to 100), as the
ordered list of release events it performs. The Rust statement
Box::from_raw(self.section_data as ...); binds its result to nothing, so
the rebuilt Box is a temporary whose destructor runs at the end of that
very statement: the ConfigSectionPointers allocation is released first,
and only then are options_free and section_free called. The leaked
OptionPointers cells of the registered options are never reclaimed (the
source marks this: TODO this currently leaks). -/
def ConfigSection.drop (self : ConfigSection) : List TeardownEvent :=
  [TeardownEvent.freeSectionCell self.section_data,
   TeardownEvent.optionsFree self.ptr,
   TeardownEvent.sectionFree self.ptr]

/-- One buffer entry of the go plugin buffer list (struct BufferData in
lib.rs). -/
structure BufferData where
  score : Int
  number : Int
  full_name : String
  short_name : String

/-- The go plugin buffer list (struct BufferList in lib.rs); the config
field is the Rc handle to the plugin configuration, irrelevant to selection
and modelled as a pointer. -/
structure BufferList where
  config : Ptr
  buffers : List BufferData
  selected_buffer : Nat

/-- BufferList.select_next_buffer (lib.rs lines 234 to 240): increment the
selected index and wrap to 0 when it reaches the end of the list. -/
def BufferList.select_next_buffer (self : BufferList) : BufferList :=
  let selected_buffer := self.selected_buffer + 1
  if selected_buffer ≥ self.buffers.length then
    { self with selected_buffer := 0 }
  else
    { self with selected_buffer := selected_buffer }

/-- BufferList.select_prev_buffer (lib.rs lines 247 to 257): when the
selected index is 0, wrap to the last index (or stay at 0 on an empty
list); otherwise decrement. The subtraction in the else branch is guarded
by the index being nonzero, exactly as in the source. -/
def BufferList.select_prev_buffer (self : BufferList) : BufferList :=
  if self.selected_buffer = 0 then
    { self with selected_buffer :=
        if self.buffers.isEmpty then 0 else self.buffers.length - 1 }
  else
    { self with selected_buffer := self.selected_buffer - 1 }

/-- BufferList.get_selected_buffer (lib.rs lines 260 to 262). -/
def BufferList.get_selected_buffer (self : BufferList) : Option BufferData :=
  self.buffers[self.selected_buffer]?

/-- The selection invariant of a BufferList: the selected index is in range
when the list is nonempty, and is 0 when the list is empty. -/
def BufferList.selection_invariant (self : BufferList) : Prop :=
  (self.buffers.length = 0 ∧ self.selected_buffer = 0) ∨
    self.selected_buffer < self.buffers.length

/-- C1: evaluating the drop glue shows the actual teardown order. Dropping a
ConfigSection releases the SectionReadWriteCell FIRST — the Box rebuilt by
Box::from_raw is an unbound temporary, destroyed at the end of its own
statement — and only afterwards invokes the host's bulk option free and the
section free. The native-side structures are therefore NOT released before
the Cell memory, contrary to the claim. -/
theorem configSection_drop_frees_cell_before_native_frees :
    ConfigSection.drop (ConfigSection.mk 1 2 3 4) =
      [TeardownEvent.freeSectionCell 4, TeardownEvent.optionsFree 1,
       TeardownEvent.sectionFree 1] := rfl

/-- C2 counterexample: with a host whose registration call returns the null
handle, new_boolean_option hands the caller a BooleanOption wrapping the
null handle — the very outcome the claim excludes — and its return type has
no failure channel at all. -/
theorem new_boolean_option_wraps_null_handle :
    ((ConfigSection.mk 1 2 3 4).new_boolean_option
        (BooleanOptionSettings.mk "opt" "desc" false false false none none
          none)
        (fun _ => nullPtr) 5).inner.ptr = nullPtr := rfl

/-- C2 (amended): new_boolean_option returns a wrapper holding exactly the
handle the host's registration call produced — a null reply is wrapped like
any other handle; no typed failure is produced and no null check is
performed. -/
theorem new_boolean_option_returns_host_handle_unchecked
    (self : ConfigSection) (settings : BooleanOptionSettings)
    (host : ConfigNewOptionArgs → Ptr) (cell_addr : Ptr) :
    (self.new_boolean_option settings host cell_addr).inner.ptr =
      host (self.new_option_args
        (ConfigSection.new_boolean_option_description settings)
        settings.check_cb settings.change_cb settings.delete_cb cell_addr) :=
  rfl

/-- C3: evaluating the drop glue at teardown of any section shows that
exactly one SectionReadWriteCell is reclaimed but ZERO registry cells are:
the OptionPointers cells of the N registered options were leaked at
registration and the drop glue never reclaims them, so their closures are
never dropped — contrary to the claim that exactly N RegistryCells are
dropped. -/
theorem configSection_drop_reclaims_no_registry_cells
    (self : ConfigSection) :
    (ConfigSection.drop self).countP TeardownEvent.isFreeRegistryCell = 0 ∧
    (ConfigSection.drop self).countP TeardownEvent.isFreeSectionCell = 1 :=
  ⟨rfl, rfl⟩

/-- C4: the check trampoline returns the fixed WEECHAT_RC_OK status for
every cell, option handle and proposed value, whether or not a check
closure is present; no rejection status can ever be returned. -/
theorem c_check_cb_always_returns_ok (pointers : OptionPointers)
    (option_pointer : Ptr) (value : String) :
    (c_check_cb pointers option_pointer value).2 = WEECHAT_RC_OK := rfl

/-- C5: the boolean flow encodes the current and default values as the
two-token on/off vocabulary, both in the OptionDescription built by
new_boolean_option and in the registration arguments handed to the host. -/
theorem new_boolean_option_on_off_encoding (self : ConfigSection)
    (settings : BooleanOptionSettings) (cell_addr : Ptr) :
    (ConfigSection.new_boolean_option_description settings).value =
      (if settings.value then "on" else "off") ∧
    (ConfigSection.new_boolean_option_description settings).default_value =
      (if settings.default_value then "on" else "off") ∧
    (self.new_option_args
      (ConfigSection.new_boolean_option_description settings)
      settings.check_cb settings.change_cb settings.delete_cb
      cell_addr).value = (if settings.value then "on" else "off") ∧
    (self.new_option_args
      (ConfigSection.new_boolean_option_description settings)
      settings.check_cb settings.change_cb settings.delete_cb
      cell_addr).default_value =
      (if settings.default_value then "on" else "off") :=
  ⟨rfl, rfl, rfl, rfl⟩

/-- C6: for each of the three callback roles independently, the function
pointer that new_option passes to the host's registration call is the
corresponding trampoline exactly when the user supplied a closure for that
role, and None (a null function pointer) when no closure was supplied. -/
theorem new_option_installs_trampoline_iff_closure_present
    (self : ConfigSection) (option_description : OptionDescription)
    (check_cb change_cb delete_cb : Option ClosureId) (cell_addr : Ptr) :
    ((self.new_option_args option_description check_cb change_cb delete_cb
        cell_addr).check_cb =
      if check_cb.isSome then some CCallback.checkTrampoline else none) ∧
    ((self.new_option_args option_description check_cb change_cb delete_cb
        cell_addr).change_cb =
      if change_cb.isSome then some CCallback.changeTrampoline else none) ∧
    ((self.new_option_args option_description check_cb change_cb delete_cb
        cell_addr).delete_cb =
      if delete_cb.isSome then some CCallback.deleteTrampoline else none) := by
  refine ⟨?_, ?_, ?_⟩
  · cases check_cb <;> rfl
  · cases change_cb <;> rfl
  · cases delete_cb <;> rfl

/-- C7: for an option whose cell holds only a change closure, one invocation
of the change trampoline performs exactly one wrapper reconstruction from
the originating handle followed by exactly one invocation of that closure
with that handle, while an invocation of the check or delete trampoline on
the same cell performs only the wrapper reconstruction and invokes no user
closure. -/
theorem change_only_option_dispatch (pointers : OptionPointers)
    (option_pointer : Ptr) (value : String) (cb : ClosureId)
    (hcheck : pointers.check_cb = none)
    (hchange : pointers.change_cb = some cb)
    (hdelete : pointers.delete_cb = none) :
    c_change_cb pointers option_pointer =
      [TrampolineEvent.reconstruct option_pointer pointers.weechat_ptr,
       TrampolineEvent.invokeChange cb option_pointer] ∧
    (c_check_cb pointers option_pointer value).1 =
      [TrampolineEvent.reconstruct option_pointer pointers.weechat_ptr] ∧
    c_delete_cb pointers option_pointer =
      [TrampolineEvent.reconstruct option_pointer pointers.weechat_ptr] := by
  refine ⟨?_, ?_, ?_⟩ <;>
    simp [c_check_cb, c_change_cb, c_delete_cb, hcheck, hchange, hdelete]

/-- C7 witness: the dispatch theorem applied to the concrete change-only
cell with plugin handle 7 and closure 3, invoked on option handle 9 with
proposed value x. -/
theorem change_only_option_dispatch_witness :
    (OptionPointers.mk 7 none (some 3) none).check_cb = none ∧
    (OptionPointers.mk 7 none (some 3) none).change_cb = some 3 ∧
    (OptionPointers.mk 7 none (some 3) none).delete_cb = none ∧
    (c_change_cb (OptionPointers.mk 7 none (some 3) none) 9 =
      [TrampolineEvent.reconstruct 9 7,
       TrampolineEvent.invokeChange 3 9] ∧
     (c_check_cb (OptionPointers.mk 7 none (some 3) none) 9 "x").1 =
      [TrampolineEvent.reconstruct 9 7] ∧
     c_delete_cb (OptionPointers.mk 7 none (some 3) none) 9 =
      [TrampolineEvent.reconstruct 9 7]) :=
  ⟨rfl, rfl, rfl,
    change_only_option_dispatch (OptionPointers.mk 7 none (some 3) none)
      9 "x" 3 rfl rfl rfl⟩

/-- C8: the host registration call receives the leaked cell's address in the
first context slot (pointer) of all three callback roles, and the null
pointer in the second legacy context slot (data) of all three roles. -/
theorem new_option_context_slots (self : ConfigSection)
    (option_description : OptionDescription)
    (check_cb change_cb delete_cb : Option ClosureId) (cell_addr : Ptr) :
    ((self.new_option_args option_description check_cb change_cb delete_cb
        cell_addr).check_pointer = cell_addr) ∧
    ((self.new_option_args option_description check_cb change_cb delete_cb
        cell_addr).change_pointer = cell_addr) ∧
    ((self.new_option_args option_description check_cb change_cb delete_cb
        cell_addr).delete_pointer = cell_addr) ∧
    ((self.new_option_args option_description check_cb change_cb delete_cb
        cell_addr).check_data = nullPtr) ∧
    ((self.new_option_args option_description check_cb change_cb delete_cb
        cell_addr).change_data = nullPtr) ∧
    ((self.new_option_args option_description check_cb change_cb delete_cb
        cell_addr).delete_data = nullPtr) :=
  ⟨rfl, rfl, rfl, rfl, rfl, rfl⟩

/-- C9: every invocation of each of the three trampolines performs exactly
one typed wrapper reconstruction via T::from_ptrs — even when the matching
closure slot is empty — and that reconstruction is the first event of the
invocation, built freshly from the passed option handle and the cell's
plugin handle, so wrappers are never cached or reused across invocations. -/
theorem trampolines_reconstruct_exactly_once (pointers : OptionPointers)
    (option_pointer : Ptr) (value : String) :
    ((c_check_cb pointers option_pointer value).1.countP
        TrampolineEvent.isReconstruct = 1 ∧
     (c_check_cb pointers option_pointer value).1.head? =
       some (TrampolineEvent.reconstruct option_pointer
         pointers.weechat_ptr)) ∧
    ((c_change_cb pointers option_pointer).countP
        TrampolineEvent.isReconstruct = 1 ∧
     (c_change_cb pointers option_pointer).head? =
       some (TrampolineEvent.reconstruct option_pointer
         pointers.weechat_ptr)) ∧
    ((c_delete_cb pointers option_pointer).countP
        TrampolineEvent.isReconstruct = 1 ∧
     (c_delete_cb pointers option_pointer).head? =
       some (TrampolineEvent.reconstruct option_pointer
         pointers.weechat_ptr)) := by
  obtain ⟨w, ch, cg, cd⟩ := pointers
  refine ⟨⟨?_, ?_⟩, ⟨?_, ?_⟩, ⟨?_, ?_⟩⟩ <;>
    first
      | cases ch <;> rfl
      | cases cg <;> rfl
      | cases cd <;> rfl

/-- C10: select_next_buffer and select_prev_buffer preserve the selection
invariant — the selected index stays in range on a nonempty list and stays
0 on an empty list — and on an empty list both leave the selected index at
0; in particular select_prev_buffer on an empty list takes the guarded
is-empty branch and never decrements the index past 0. -/
theorem bufferList_selection_invariant_preserved (l : BufferList)
    (h : l.selection_invariant) :
    (l.select_next_buffer).selection_invariant ∧
    (l.select_prev_buffer).selection_invariant ∧
    (l.buffers.length = 0 →
      (l.select_next_buffer).selected_buffer = 0 ∧
      (l.select_prev_buffer).selected_buffer = 0) := by
  obtain ⟨c, bufs, sel⟩ := l
  simp only [BufferList.selection_invariant] at h
  cases bufs with
  | nil =>
    have hsel : sel = 0 := by
      rcases h with ⟨h1, h2⟩ | h
      · exact h2
      · exact absurd h (Nat.not_lt_zero sel)
    subst hsel
    refine ⟨?_, ?_, fun _ => ⟨?_, ?_⟩⟩ <;>
      simp [BufferList.selection_invariant, BufferList.select_next_buffer,
        BufferList.select_prev_buffer]
  | cons b t =>
    have hlt : sel < (b :: t).length := by
      rcases h with ⟨h1, h2⟩ | h
      · simp at h1
      · exact h
    simp only [List.length_cons] at hlt
    refine ⟨?_, ?_, ?_⟩
    · unfold BufferList.select_next_buffer
      by_cases hge : sel + 1 ≥ (b :: t).length
      · rw [if_pos hge]
        exact Or.inr (by simp)
      · rw [if_neg hge]
        simp only [List.length_cons, ge_iff_le, not_le] at hge
        exact Or.inr (by simp only [BufferList.selection_invariant,
          List.length_cons]; omega)
    · unfold BufferList.select_prev_buffer
      by_cases hz : sel = 0
      · rw [if_pos hz]
        refine Or.inr ?_
        simp
      · rw [if_neg hz]
        exact Or.inr (by simp only [List.length_cons]; omega)
    · intro hlen
      simp at hlen

/-- C10 witness: the invariant-preservation theorem applied to a concrete
two-element buffer list with the second buffer selected. -/
theorem bufferList_selection_invariant_witness :
    (BufferList.mk 0
      [BufferData.mk 0 1 "core.weechat" "weechat",
       BufferData.mk 0 2 "irc.server" "server"] 1).selection_invariant ∧
    ((BufferList.mk 0
        [BufferData.mk 0 1 "core.weechat" "weechat",
         BufferData.mk 0 2 "irc.server" "server"]
        1).select_next_buffer.selection_invariant ∧
     (BufferList.mk 0
        [BufferData.mk 0 1 "core.weechat" "weechat",
         BufferData.mk 0 2 "irc.server" "server"]
        1).select_prev_buffer.selection_invariant ∧
     ((BufferList.mk 0
        [BufferData.mk 0 1 "core.weechat" "weechat",
         BufferData.mk 0 2 "irc.server" "server"] 1).buffers.length = 0 →
       (BufferList.mk 0
          [BufferData.mk 0 1 "core.weechat" "weechat",
           BufferData.mk 0 2 "irc.server" "server"]
          1).select_next_buffer.selected_buffer = 0 ∧
       (BufferList.mk 0
          [BufferData.mk 0 1 "core.weechat" "weechat",
           BufferData.mk 0 2 "irc.server" "server"]
          1).select_prev_buffer.selected_buffer = 0)) :=
  ⟨Or.inr (by decide),
   bufferList_selection_invariant_preserved
     (BufferList.mk 0
       [BufferData.mk 0 1 "core.weechat" "weechat",
        BufferData.mk 0 2 "irc.server" "server"] 1)
     (Or.inr (by decide))⟩

end RustWeechat
